import Mathlib

/-!
# Verification of the dux-wellness training-load metrics engine

Shallow embedding of `src/modules/reports/metrics.py` and
`src/modules/reports/ui_grupal.py`.  Python `datetime.date` values are
modelled as proleptic-Gregorian ordinals (`ℤ`, Python's `date.toordinal`),
floats as `ℚ` (exact arithmetic) except where a square root or an
exponential forces `ℝ`, and pandas missing values (`NaN`/`None`) as
`Option`.
-/

namespace DuxWellness

/-! ## Date model

A date is its Python ordinal: `0001-01-01 = 1`.  `pyWeekday` is
`date.weekday()` (Monday = 0); ordinal 1 is a Monday. -/

def pyWeekday (d : ℤ) : ℤ := (d + 6) % 7

/-- `ymdToOrdinal y m d` is the Python ordinal of the proleptic-Gregorian
calendar date `y-m-d` (via the Julian Day Number formula). -/
def ymdToOrdinal (y m d : ℤ) : ℤ :=
  let a := (14 - m).ediv 12
  let y2 := y + 4800 - a
  let m2 := m + 12 * a - 3
  d + (153 * m2 + 2).ediv 5 + 365 * y2 + y2.ediv 4 - y2.ediv 100 + y2.ediv 400 - 32045
    - 1721425

/-- Inverse conversion: ordinal to `(year, month, day)` (civil-from-days
algorithm, floor divisions). -/
def dateToYMD (n : ℤ) : ℤ × ℤ × ℤ :=
  let z := n + 305
  let era := z.ediv 146097
  let doe := z - era * 146097
  let yoe := (doe - doe.ediv 1460 + doe.ediv 36524 - doe.ediv 146096).ediv 365
  let y := yoe + era * 400
  let doy := doe - (365 * yoe + yoe.ediv 4 - yoe.ediv 100)
  let mp := (5 * doy + 2).ediv 153
  let d := doy - (153 * mp + 2).ediv 5 + 1
  let m := mp + (if mp < 10 then 3 else -9)
  (y + (if m ≤ 2 then 1 else 0), m, d)

/-- `_current_week_range` from `metrics.py`: Monday-to-Sunday week
containing `end_day` (`start = end_day - weekday`, `end = start + 6`). -/
def _current_week_range (end_day : ℤ) : ℤ × ℤ :=
  let start := end_day - pyWeekday end_day
  (start, start + 6)

/-- `_month_range` from `metrics.py`: first to last calendar day of the
month of `end_day` (steps to day 1 of the next month, rolling December
into January, and subtracts one day). -/
def _month_range (end_day : ℤ) : ℤ × ℤ :=
  let ymd := dateToYMD end_day
  let start := ymdToOrdinal ymd.1 ymd.2.1 1
  let next_month_start :=
    if ymd.2.1 = 12 then ymdToOrdinal (ymd.1 + 1) 1 1
    else ymdToOrdinal ymd.1 (ymd.2.1 + 1) 1
  (start, next_month_start - 1)

/-! ## Small list helpers (pandas primitives) -/

/-- `Series.mean()` over the non-missing values of a column already known
to carry no `NaN`: sum divided by length (`ℚ` division, `0` on `[]`). -/
def meanQ (l : List ℚ) : ℚ := l.sum / l.length

/-- Population variance (`ddof=0`): mean squared deviation from the mean. -/
def pvarQ (l : List ℚ) : ℚ := ((l.map fun x => (x - meanQ l) ^ 2).sum) / l.length

/-- `Series.std(ddof=0)`: square root of the population variance. -/
noncomputable def pstdQ (l : List ℚ) : ℝ := Real.sqrt ((pvarQ l : ℚ) : ℝ)

def listMaxZ : List ℤ → ℤ
  | [] => 0
  | x :: xs => xs.foldl max x

def listMinZ : List ℤ → ℤ
  | [] => 0
  | x :: xs => xs.foldl min x

/-- `Series.sum(min_count=1)` over a group: `none` (NaN) if every value is
missing, otherwise the sum of the non-missing values. -/
def minCountSum (l : List (Option ℚ)) : Option ℚ :=
  let v := l.filterMap id
  if v = [] then none else some v.sum

/-- Sorted insertion skipping duplicates: builds the ascending list of
distinct keys, as `DataFrame.groupby` does for its group keys. -/
def insertUnique {α : Type} [LinearOrder α] (x : α) : List α → List α
  | [] => [x]
  | y :: ys =>
    if x < y then x :: y :: ys
    else if x = y then y :: ys
    else y :: insertUnique x ys

/-- Ascending list of the distinct elements of `l` (groupby keys). -/
def sortDedup {α : Type} [LinearOrder α] (l : List α) : List α :=
  l.foldr insertUnique []

/-! ## Raw cell model (for the Record Normalizer)

A pandas object cell: a number, a string, a date object, or a missing
value (`None` / `NaN`). -/

inductive Cell where
  | num (q : ℚ)
  | str (s : String)
  | date (d : ℤ)
  | null
  deriving DecidableEq

def allDigits (cs : List Char) : Bool := cs.all Char.isDigit

def digitsToNat (cs : List Char) : ℕ := cs.foldl (fun a c => 10 * a + (c.toNat - 48)) 0

/-- Decimal-string parsing as done by `pd.to_numeric` for the common
numeric literal shapes: optional sign, digits, optional fractional part.
Anything else fails to parse. -/
def parseDec (s : String) : Option ℚ :=
  let cs := s.toList
  let sgn : ℚ × List Char :=
    match cs with
    | '-' :: rest => (-1, rest)
    | '+' :: rest => (1, rest)
    | _ => (1, cs)
  let body := sgn.2
  if body.count '.' = 0 then
    if body ≠ [] ∧ allDigits body then some (sgn.1 * digitsToNat body) else none
  else if body.count '.' = 1 then
    let ip := body.takeWhile (fun c => c ≠ '.')
    let fp := (body.dropWhile (fun c => c ≠ '.')).tail
    if (ip ≠ [] ∨ fp ≠ []) ∧ allDigits ip ∧ allDigits fp then
      some (sgn.1 * ((digitsToNat ip : ℚ) + (digitsToNat fp : ℚ) / 10 ^ fp.length))
    else none
  else none

/-- `pd.to_numeric(col, errors="coerce")` on one cell: numbers pass
through, numeric strings parse, everything else coerces to `NaN`. -/
def cellToNumeric : Cell → Option ℚ
  | Cell.num q => some q
  | Cell.str s => parseDec s
  | Cell.date _ => none
  | Cell.null => none

/-- One raw record row, restricted to the columns the normalizer reads. -/
structure CRow where
  tipo : Cell
  ua : Cell
  fecha : Cell
  fecha_sesion : Cell
  deriving DecidableEq

/-- A raw record table: which of the relevant columns exist, plus the
rows.  Column presence is a table-level property in pandas. -/
structure CDF where
  hasTipo : Bool
  hasUa : Bool
  hasFecha : Bool
  hasFechaSesion : Bool
  rows : List CRow
  deriving DecidableEq

/-- A row surviving normalization: the (unparsed!) `fecha_sesion` cell and
the coerced numeric load. -/
structure PrepRow where
  fecha_sesion : Cell
  ua : ℚ
  deriving DecidableEq

/-- `_prepare_checkout_df` from `metrics.py` over the raw cell model.

* empty input returns an empty frame;
* when a `tipo` column exists, only `checkOut` rows are kept;
* `ua` is coerced with `pd.to_numeric(errors="coerce")` (set wholly to
  `NaN` if the column is absent);
* the source then runs
  `out["fecha_sesion"] = pd.to_datetime(out["fecha_sesion"], ...)` under
  the guard `"fecha" in out.columns and "fecha_sesion" not in out.columns`,
  i.e. it reads a column the guard just established to be absent - a
  `KeyError`;
* `dropna(subset=["fecha_sesion", "ua"])` also raises `KeyError` when
  `fecha_sesion` is absent, and otherwise drops only missing (`NaN`)
  cells - an unparseable date *string* in an existing `fecha_sesion`
  column is never coerced and never dropped. -/
def _prepare_checkout_df (df : CDF) : Except String (List PrepRow) :=
  if df.rows = [] then Except.ok [] else
  let out := if df.hasTipo then df.rows.filter (fun r => r.tipo = Cell.str "checkOut")
             else df.rows
  let uaOf : CRow → Option ℚ := fun r => if df.hasUa then cellToNumeric r.ua else none
  if df.hasFecha ∧ ¬ df.hasFechaSesion then
    Except.error "KeyError: fecha_sesion"
  else if ¬ df.hasFechaSesion then
    Except.error "KeyError: fecha_sesion"
  else
    Except.ok (out.filterMap fun r =>
      (uaOf r).bind fun q =>
        if r.fecha_sesion = Cell.null then none else some ⟨r.fecha_sesion, q⟩)

/-! ## Typed pipeline

In every in-repo call the input frame carries date-typed `fecha_sesion`
values and the columns `tipo`, `ua`, `minutos_sesion`, `id_jugadora`,
`nombre_jugadora`; the definitions below embed the same source functions
at that (well-dated) input shape. -/

/-- One raw session record of the multi-athlete table (`SessionRecord`). -/
structure GRow where
  id_jugadora : String
  nombre_jugadora : String
  tipo : String
  ua : Cell
  fecha_sesion : ℤ
  minutos_sesion : Option ℚ
  deriving DecidableEq

/-- A normalized session row: `ua` numeric and present, date present. -/
structure SessionRow where
  fecha_sesion : ℤ
  ua : ℚ
  minutos_sesion : Option ℚ
  deriving DecidableEq

/-- `_prepare_checkout_df` at the well-dated input shape: keep `checkOut`
rows, coerce `ua`, drop rows whose `ua` fails to coerce (the date never
drops here - it is present and typed). -/
def _prepare_checkout_df_typed (df : List GRow) : List SessionRow :=
  if df = [] then [] else
  let out := df.filter fun r => r.tipo = "checkOut"
  out.filterMap fun r =>
    (cellToNumeric r.ua).map fun q =>
      { fecha_sesion := r.fecha_sesion, ua := q, minutos_sesion := r.minutos_sesion }

/-- One row of the `DailyLoad` table produced inside the snapshot engine
(`ua_total` is never `NaN` there: the normalizer dropped missing loads). -/
structure DailyRow where
  fecha_sesion : ℤ
  ua_total : ℚ
  minutos_total : Option ℚ
  deriving DecidableEq

/-- `_daily_loads` from `metrics.py` at the normalized-input shape: group
by `fecha_sesion` (keys ascending, as pandas does), summing `ua` and
`minutos_sesion` with `min_count=1`. -/
def _daily_loads_typed (df : List SessionRow) : List DailyRow :=
  if df = [] then [] else
  (sortDedup (df.map SessionRow.fecha_sesion)).map fun d =>
    let grp := df.filter fun r => r.fecha_sesion = d
    { fecha_sesion := d
      ua_total := (grp.map SessionRow.ua).sum
      minutos_total := minCountSum (grp.map SessionRow.minutos_sesion) }

/-- An input row for the general `_daily_loads` (values may be `NaN`). -/
structure LoadRow where
  fecha_sesion : ℤ
  ua : Option ℚ
  minutos_sesion : Option ℚ
  deriving DecidableEq

/-- General `_daily_loads` input: the frame may lack the `ua` and
`minutos_sesion` columns (the function then creates them filled with 0). -/
structure LoadDF where
  hasUa : Bool
  hasMinutos : Bool
  rows : List LoadRow
  deriving DecidableEq

/-- Output row of the general `_daily_loads` (`min_count=1` sums are
`NaN` when every contribution is missing). -/
structure DailyRowG where
  fecha_sesion : ℤ
  ua_total : Option ℚ
  minutos_total : Option ℚ
  deriving DecidableEq

/-- `_daily_loads` from `metrics.py`, general form: ensure the `ua` and
`minutos_sesion` columns exist (filling 0 when absent), group by
`fecha_sesion` ascending, and sum each group with `min_count=1`. -/
def _daily_loads (df : LoadDF) : List DailyRowG :=
  if df.rows = [] then [] else
  let withCols : List LoadRow := df.rows.map fun r =>
    { r with ua := if df.hasUa then r.ua else some 0,
             minutos_sesion := if df.hasMinutos then r.minutos_sesion else some 0 }
  (sortDedup (withCols.map LoadRow.fecha_sesion)).map fun d =>
    let grp := withCols.filter fun r => r.fecha_sesion = d
    { fecha_sesion := d
      ua_total := minCountSum (grp.map LoadRow.ua)
      minutos_total := minCountSum (grp.map LoadRow.minutos_sesion) }

/-- `_chronic_load` from `metrics.py`: mean `ua_total` over the rows whose
date lies in the trailing window of `days` calendar days ending at
`end_day`; `0.0` when no row falls in the window. -/
def _chronic_load (daily : List DailyRow) (end_day : ℤ) (days : ℕ) : ℚ :=
  let start := end_day - ((days : ℤ) - 1)
  let window := daily.filter fun r => start ≤ r.fecha_sesion ∧ r.fecha_sesion ≤ end_day
  if window = [] then 0 else meanQ (window.map DailyRow.ua_total)

/-- `RPEFilters` from `metrics.py`. -/
structure RPEFilters where
  jugadores : Option (List String) := none
  turnos : Option (List String) := none
  start : Option ℤ := none
  «end» : Option ℤ := none

/-- The `res` dictionary of `compute_rpe_metrics`: every index is nullable
(initialized to `None`, set only when the normalized input is nonempty).
For `minutos_sesion` the inner `Option` is the possible `NaN` of
`minutos_total` (the outer one is the never-set `None` of empty input). -/
structure RPEMetrics where
  ua_total_dia : Option ℚ := none
  minutos_sesion : Option (Option ℚ) := none
  carga_semana : Option ℚ := none
  carga_mes : Option ℚ := none
  carga_media_semana : Option ℚ := none
  carga_media_mes : Option ℚ := none
  monotonia_semana : Option ℝ := none
  fatiga_aguda : Option ℚ := none
  fatiga_aguda_diaria : Option ℚ := none
  fatiga_cronica_28d : Option ℚ := none
  fatiga_cronica_42d : Option ℚ := none
  fatiga_cronica_56d : Option ℚ := none
  adaptacion_28d : Option ℚ := none
  adaptacion_42d : Option ℚ := none
  adaptacion_56d : Option ℚ := none
  acwr_28d : Option ℚ := none
  acwr_42d : Option ℚ := none
  acwr_56d : Option ℚ := none
  recuperacion_28d : Option ℚ := none
  recuperacion_42d : Option ℚ := none
  recuperacion_56d : Option ℚ := none
  variabilidad_semana : Option ℝ := none
  daily_table : List DailyRow := []

/-- Body of `compute_rpe_metrics` after its call to
`_prepare_checkout_df` (the source guards `if df.empty: return res`).
Python truthiness `if res[...]` on a float is `≠ 0`; `x or y` on an
optional date is `Option.getD`. -/
noncomputable def computeCore (df : List SessionRow) (flt : RPEFilters) : RPEMetrics :=
  if df = [] then {} else
  let daily := _daily_loads_typed df
  let end_day := flt.«end».getD (listMaxZ (daily.map DailyRow.fecha_sesion))
  let wr := _current_week_range end_day
  let daily_week := daily.filter fun r => wr.1 ≤ r.fecha_sesion ∧ r.fecha_sesion ≤ wr.2
  let semana_sum : ℚ := if daily_week = [] then 0 else (daily_week.map DailyRow.ua_total).sum
  let semana_mean : ℚ := if daily_week = [] then 0 else meanQ (daily_week.map DailyRow.ua_total)
  let semana_std : ℝ := if 1 < daily_week.length then pstdQ (daily_week.map DailyRow.ua_total) else 0
  let day_row := daily.filter fun r => r.fecha_sesion = end_day
  let mr := _month_range end_day
  let daily_month := daily.filter fun r => mr.1 ≤ r.fecha_sesion ∧ r.fecha_sesion ≤ mr.2
  let mes_sum : ℚ := if daily_month = [] then 0 else (daily_month.map DailyRow.ua_total).sum
  let mes_mean : ℚ := if daily_month = [] then 0 else meanQ (daily_month.map DailyRow.ua_total)
  let last7_start := end_day - 6
  let daily_last7 := daily.filter fun r => last7_start ≤ r.fecha_sesion ∧ r.fecha_sesion ≤ end_day
  let fatiga_aguda : ℚ := if daily_last7 = [] then 0 else (daily_last7.map DailyRow.ua_total).sum
  let fc28 := _chronic_load daily end_day 28
  let fc42 := _chronic_load daily end_day 42
  let fc56 := _chronic_load daily end_day 56
  let fatiga_aguda_diaria := fatiga_aguda / 7
  { ua_total_dia := some (match day_row with | [] => 0 | r :: _ => r.ua_total)
    minutos_sesion := some (match day_row with | [] => some 0 | r :: _ => r.minutos_total)
    carga_semana := some semana_sum
    carga_media_semana := some semana_mean
    monotonia_semana :=
      if semana_std ≠ 0 ∧ 0 < semana_std then some ((semana_mean : ℝ) / semana_std) else none
    variabilidad_semana := some semana_std
    carga_mes := some mes_sum
    carga_media_mes := some mes_mean
    fatiga_aguda := some fatiga_aguda
    fatiga_aguda_diaria := some fatiga_aguda_diaria
    fatiga_cronica_28d := some fc28
    fatiga_cronica_42d := some fc42
    fatiga_cronica_56d := some fc56
    adaptacion_28d := if fc28 ≠ 0 then some (fc28 - fatiga_aguda / 7) else none
    adaptacion_42d := if fc42 ≠ 0 then some (fc42 - fatiga_aguda / 7) else none
    adaptacion_56d := if fc56 ≠ 0 then some (fc56 - fatiga_aguda / 7) else none
    recuperacion_28d := if fc28 ≠ 0 then some (fc28 - fatiga_aguda_diaria) else none
    recuperacion_42d := if fc42 ≠ 0 then some (fc42 - fatiga_aguda_diaria) else none
    recuperacion_56d := if fc56 ≠ 0 then some (fc56 - fatiga_aguda_diaria) else none
    acwr_28d := if fc28 ≠ 0 then some ((fatiga_aguda / 7) / fc28) else none
    acwr_42d := if fc42 ≠ 0 then some ((fatiga_aguda / 7) / fc42) else none
    acwr_56d := if fc56 ≠ 0 then some ((fatiga_aguda / 7) / fc56) else none
    daily_table := daily }

/-- `compute_rpe_metrics` from `metrics.py` (at the well-dated input
shape): normalize, then compute the snapshot. -/
noncomputable def compute_rpe_metrics (df_raw : List GRow) (flt : RPEFilters) : RPEMetrics :=
  computeCore (_prepare_checkout_df_typed df_raw) flt

/-! ## Player/Group Aggregator (`ui_grupal.py`) -/

/-- One row of the per-athlete table built by
`compute_rpe_metrics_by_player`. -/
structure PlayerRow where
  id_jugadora : String
  nombre_jugadora : String
  ua_dia : Option ℚ
  minutos_dia : Option (Option ℚ)
  carga_semana : Option ℚ
  carga_mes : Option ℚ
  fatiga_aguda : Option ℚ
  fatiga_cronica_28d : Option ℚ
  fatiga_cronica_42d : Option ℚ
  fatiga_cronica_56d : Option ℚ
  acwr_28d : Option ℚ
  acwr_42d : Option ℚ
  acwr_56d : Option ℚ
  monotonia : Option ℝ
  variabilidad : Option ℝ
  adaptacion_28d : Option ℚ
  adaptacion_42d : Option ℚ
  adaptacion_56d : Option ℚ

/-- `compute_rpe_metrics_by_player` from `ui_grupal.py`: group the raw
table by `id_jugadora` (distinct ids ascending, as pandas sorts group
keys), run `compute_rpe_metrics` on each athlete's rows, and collect one
row per athlete.  The source guards each append with
`if not metrics: continue`, but `compute_rpe_metrics` always returns a
dictionary populated with every key, so the guard never fires and every
athlete - even one with zero usable rows - produces a row.
`turnos or None` maps an empty list to `None`. -/
noncomputable def compute_rpe_metrics_by_player (df : List GRow)
    (_jugadores turnos : Option (List String)) (start «end» : Option ℤ) : List PlayerRow :=
  (sortDedup (df.map GRow.id_jugadora)).map fun id_jugadora =>
    let df_jug := df.filter fun r => r.id_jugadora = id_jugadora
    let flt : RPEFilters :=
      { jugadores := some [id_jugadora]
        turnos := match turnos with | some [] => none | t => t
        start := start
        «end» := «end» }
    let metrics := compute_rpe_metrics df_jug flt
    { id_jugadora := id_jugadora
      nombre_jugadora := match df_jug with | [] => "" | r :: _ => r.nombre_jugadora
      ua_dia := metrics.ua_total_dia
      minutos_dia := metrics.minutos_sesion
      carga_semana := metrics.carga_semana
      carga_mes := metrics.carga_mes
      fatiga_aguda := metrics.fatiga_aguda
      fatiga_cronica_28d := metrics.fatiga_cronica_28d
      fatiga_cronica_42d := metrics.fatiga_cronica_42d
      fatiga_cronica_56d := metrics.fatiga_cronica_56d
      acwr_28d := metrics.acwr_28d
      acwr_42d := metrics.acwr_42d
      acwr_56d := metrics.acwr_56d
      monotonia := metrics.monotonia_semana
      variabilidad := metrics.variabilidad_semana
      adaptacion_28d := metrics.adaptacion_28d
      adaptacion_42d := metrics.adaptacion_42d
      adaptacion_56d := metrics.adaptacion_56d }

/-! ## Continuous Time-Series Generators

Both generators group the whole input by date summing `ua` (the group
variant therefore sums across athletes), reindex to a gap-filled daily
calendar with rest days as 0, and derive rolling curves.  Values are `ℝ`
(the EMA decay factor is `1 - exp(-1/τ)`); the result is the gap-filled
date list plus the named numeric columns in insertion order. -/

/-- One input row for the time-series generators (the columns they use). -/
structure TSRow where
  fecha_sesion : ℤ
  ua : ℚ
  deriving DecidableEq

/-- The consecutive dates from `a` to `b` inclusive (`asfreq("D")`). -/
def dayRange (a b : ℤ) : List ℤ := (List.range (b - a + 1).toNat).map fun i => a + (i : ℤ)

/-- Gap-filled calendar from first to last observed date. -/
def tsDates (df : List TSRow) : List ℤ :=
  dayRange (listMinZ (df.map TSRow.fecha_sesion)) (listMaxZ (df.map TSRow.fecha_sesion))

/-- Daily summed load on the gap-filled calendar (`fillna(0)`). -/
noncomputable def tsUA (df : List TSRow) : List ℝ :=
  (tsDates df).map fun d => ((((df.filter fun r => r.fecha_sesion = d).map TSRow.ua).sum : ℚ) : ℝ)

/-- `Series.rolling(window=w, min_periods=1).mean()`: at position `i` the
mean of the last `min(i+1, w)` values. -/
noncomputable def rollingMean (w : ℕ) (xs : List ℝ) : List ℝ :=
  (List.range xs.length).map fun i =>
    let win := (xs.take (i + 1)).drop (i + 1 - w)
    win.sum / win.length

/-- Recursive (non-adjusted) exponential smoothing after the seed. -/
noncomputable def emaAux (alpha : ℝ) : ℝ → List ℝ → List ℝ
  | _, [] => []
  | prev, x :: xs =>
    let y := (1 - alpha) * prev + alpha * x
    y :: emaAux alpha y xs

/-- `Series.ewm(alpha, adjust=False).mean()`: seeded by the first sample,
then the recursive update `y = (1-alpha)*prev + alpha*x`. -/
noncomputable def ewmMean (alpha : ℝ) : List ℝ → List ℝ
  | [] => []
  | x :: xs => x :: emaAux alpha x xs

/-- `_ema` from `metrics.py`: Banister EMA with `alpha = 1 - exp(-1/tau)`,
non-adjusted. -/
noncomputable def _ema (series : List ℝ) (tau : ℕ) : List ℝ :=
  ewmMean (1 - Real.exp (-1 / (tau : ℝ))) series

/-- `round(2)` as numpy does it: scale by 100 and round half to even. -/
noncomputable def round2 (x : ℝ) : ℝ :=
  let y := x * 100
  let f : ℤ := ⌊y⌋
  let r := y - (f : ℝ)
  (if r < 1 / 2 then (f : ℝ)
   else if 1 / 2 < r then ((f + 1 : ℤ) : ℝ)
   else if f.emod 2 = 0 then (f : ℝ) else ((f + 1 : ℤ) : ℝ)) / 100

/-- `compute_rpe_timeseries` from `metrics.py` (per athlete): gap-filled
daily load plus SMA and EMA acute/chronic curves with recovery and ACWR
from each, all rounded to 2 decimals.  Column names are the source's
f-strings. -/
noncomputable def compute_rpe_timeseries (df : List TSRow)
    (ventana_aguda : ℕ := 7) (ventana_cronica : ℕ := 42) :
    List ℤ × List (String × List ℝ) :=
  if df = [] then ([], []) else
  let dates := tsDates df
  let ua := tsUA df
  let agudaS := rollingMean ventana_aguda ua
  let cronS := rollingMean ventana_cronica ua
  let recS := List.zipWith (fun c a => c - a) cronS agudaS
  let acwrS := List.zipWith (fun a c => a / c) agudaS cronS
  let agudaE := _ema ua ventana_aguda
  let cronE := _ema ua ventana_cronica
  let recE := List.zipWith (fun c a => c - a) cronE agudaE
  let acwrE := List.zipWith (fun a c => a / c) agudaE cronE
  (dates,
    [("ua_diaria", ua.map round2),
     ("fatiga_aguda_" ++ toString ventana_aguda ++ "d_sma", agudaS.map round2),
     ("fatiga_cronica_" ++ toString ventana_cronica ++ "d_sma", cronS.map round2),
     ("recuperacion_" ++ toString ventana_cronica ++ "d_sma", recS.map round2),
     ("acwr_" ++ toString ventana_cronica ++ "d_sma", acwrS.map round2),
     ("fatiga_aguda_" ++ toString ventana_aguda ++ "d_ema", agudaE.map round2),
     ("fatiga_cronica_" ++ toString ventana_cronica ++ "d_ema", cronE.map round2),
     ("recuperacion_" ++ toString ventana_cronica ++ "d_ema", recE.map round2),
     ("acwr_" ++ toString ventana_cronica ++ "d_ema", acwrE.map round2)])

/-- `compute_rpe_timeseries_group` from `ui_grupal.py`: squad-summed
daily load on the gap-filled calendar, then SMA curves only (the acute
column name is the hard-coded `fatiga_aguda_7d`), recovery and ACWR from
them, rounded.  No EMA columns are produced. -/
noncomputable def compute_rpe_timeseries_group (df : List TSRow)
    (ventana_aguda : ℕ := 7) (ventana_cronica : ℕ := 42) :
    List ℤ × List (String × List ℝ) :=
  if df = [] then ([], []) else
  let dates := tsDates df
  let ua := tsUA df
  let aguda := rollingMean ventana_aguda ua
  let cron := rollingMean ventana_cronica ua
  let recu := List.zipWith (fun c a => c - a) cron aguda
  let acwr := List.zipWith (fun a c => a / c) aguda cron
  (dates,
    [("ua_grupal", ua.map round2),
     ("fatiga_aguda_7d", aguda.map round2),
     ("fatiga_cronica_" ++ toString ventana_cronica ++ "d", cron.map round2),
     ("recuperacion_" ++ toString ventana_cronica ++ "d", recu.map round2),
     ("acwr_" ++ toString ventana_cronica ++ "d", acwr.map round2)])

/-! ## Derived expressions used by the specification statements

These re-derive, outside the engine, the quantities the spec sentences
talk about: the engine's daily table, its reference date, the trailing
7-day acute sum, and the current-week rows. -/

/-- The `DailyLoad` table the snapshot engine builds for a raw input. -/
def snapDaily (df : List GRow) : List DailyRow :=
  _daily_loads_typed (_prepare_checkout_df_typed df)

/-- The engine's reference date: `flt.end or daily["fecha_sesion"].max()`. -/
def snapEnd (df : List GRow) (flt : RPEFilters) : ℤ :=
  flt.«end».getD (listMaxZ ((snapDaily df).map DailyRow.fecha_sesion))

/-- The spec's `fatiga_aguda`: sum of daily load over the 7 calendar days
ending at the reference date. -/
def acute7Sum (df : List GRow) (flt : RPEFilters) : ℚ :=
  (((snapDaily df).filter fun r =>
      snapEnd df flt - 6 ≤ r.fecha_sesion ∧ r.fecha_sesion ≤ snapEnd df flt).map
    DailyRow.ua_total).sum

/-- The daily rows of the Monday-to-Sunday week containing the reference
date. -/
def weekRows (df : List GRow) (flt : RPEFilters) : List DailyRow :=
  (snapDaily df).filter fun r =>
    (_current_week_range (snapEnd df flt)).1 ≤ r.fecha_sesion ∧
      r.fecha_sesion ≤ (_current_week_range (snapEnd df flt)).2

/-- The week's daily-load values. -/
def weekVals (df : List GRow) (flt : RPEFilters) : List ℚ :=
  (weekRows df flt).map DailyRow.ua_total

/-- The snapshot engine's `daily_table` viewed again as a raw input frame
for `_daily_loads`: its columns are `fecha_sesion`, `ua_total`,
`minutos_total` - in particular it has *no* `ua` or `minutos_sesion`
column. -/
def dailyTableAsDF (daily : List DailyRow) : LoadDF :=
  { hasUa := false
    hasMinutos := false
    rows := daily.map fun r => { fecha_sesion := r.fecha_sesion, ua := none, minutos_sesion := none } }

/-! ## Concrete tables used in witnesses and counterexamples

Dates are Python ordinals; ordinal 1 is Monday 0001-01-01, so the
scenario "day k" is ordinal k. -/

/-- One athlete, one `checkOut` session of load 100 on day 1. -/
def dfW : List GRow :=
  [{ id_jugadora := "A", nombre_jugadora := "Ana", tipo := "checkOut",
     ua := Cell.num 100, fecha_sesion := 1, minutos_sesion := some 60 }]

/-- Reference date day 28. -/
def fltW28 : RPEFilters := { «end» := some 28 }

/-- Reference date day 1. -/
def fltW1 : RPEFilters := { «end» := some 1 }

/-- One athlete, sessions of load 2 and 4 on days 1 and 2 (same week). -/
def dfW2 : List GRow :=
  [{ id_jugadora := "A", nombre_jugadora := "Ana", tipo := "checkOut",
     ua := Cell.num 2, fecha_sesion := 1, minutos_sesion := some 60 },
   { id_jugadora := "A", nombre_jugadora := "Ana", tipo := "checkOut",
     ua := Cell.num 4, fecha_sesion := 2, minutos_sesion := some 60 }]

/-- Reference date day 2. -/
def fltW2 : RPEFilters := { «end» := some 2 }

/-- Two athletes: A has a usable `checkOut` session, B only a `checkIn`
row (zero usable session rows after normalization). -/
def dfC5 : List GRow :=
  [{ id_jugadora := "A", nombre_jugadora := "Ana", tipo := "checkOut",
     ua := Cell.num 100, fecha_sesion := 1, minutos_sesion := some 60 },
   { id_jugadora := "B", nombre_jugadora := "Bea", tipo := "checkIn",
     ua := Cell.num 50, fecha_sesion := 1, minutos_sesion := some 30 }]

/-- A one-session input for the time-series generators. -/
def dfT : List TSRow := [{ fecha_sesion := 1, ua := 10 }]

/-! ## Lemmas about sorted deduplication (groupby keys) -/

theorem mem_insertUnique {α : Type} [LinearOrder α] (x a : α) (l : List α) :
    a ∈ insertUnique x l ↔ a = x ∨ a ∈ l := by
  induction l with
  | nil => simp [insertUnique]
  | cons y ys ih =>
    simp only [insertUnique]
    split_ifs with h1 h2
    · simp [List.mem_cons]
    · subst h2
      simp only [List.mem_cons]
      tauto
    · simp only [List.mem_cons, ih]
      tauto

theorem mem_sortDedup {α : Type} [LinearOrder α] (a : α) (l : List α) :
    a ∈ sortDedup l ↔ a ∈ l := by
  induction l with
  | nil => simp [sortDedup]
  | cons y ys ih =>
    simp only [sortDedup, List.foldr_cons, List.mem_cons]
    rw [show List.foldr insertUnique [] ys = sortDedup ys from rfl] at *
    rw [mem_insertUnique]
    tauto

theorem sorted_insertUnique {α : Type} [LinearOrder α] (x : α) (l : List α)
    (h : l.Sorted (· < ·)) : (insertUnique x l).Sorted (· < ·) := by
  induction l with
  | nil => simp [insertUnique]
  | cons y ys ih =>
    simp only [insertUnique]
    rw [List.sorted_cons] at h
    split_ifs with h1 h2
    · rw [List.sorted_cons]
      refine ⟨?_, by rw [List.sorted_cons]; exact h⟩
      intro b hb
      rcases List.mem_cons.mp hb with rfl | hb
      · exact h1
      · exact lt_trans h1 (h.1 b hb)
    · subst h2
      rw [List.sorted_cons]
      exact h
    · rw [List.sorted_cons]
      refine ⟨?_, ih h.2⟩
      intro b hb
      rw [mem_insertUnique] at hb
      rcases hb with rfl | hb
      · exact lt_of_le_of_ne (not_lt.mp h1) (Ne.symm h2)
      · exact h.1 b hb

theorem sorted_sortDedup {α : Type} [LinearOrder α] (l : List α) :
    (sortDedup l).Sorted (· < ·) := by
  induction l with
  | nil => simp [sortDedup]
  | cons y ys ih => exact sorted_insertUnique y _ ih

theorem sortDedup_eq_self {α : Type} [LinearOrder α] (l : List α)
    (h : l.Sorted (· < ·)) : sortDedup l = l := by
  induction l with
  | nil => rfl
  | cons y ys ih =>
    rw [List.sorted_cons] at h
    show insertUnique y (sortDedup ys) = y :: ys
    rw [ih h.2]
    cases ys with
    | nil => rfl
    | cons z zs =>
      simp only [insertUnique]
      rw [if_pos (h.1 z (by simp))]

/-! ## Helper lemmas: the snapshot engine field by field -/

theorem sum_if_nil (X : List DailyRow) :
    (if X = [] then (0 : ℚ) else (X.map DailyRow.ua_total).sum) =
      (X.map DailyRow.ua_total).sum := by
  cases X <;> simp

theorem core_empty (df : List GRow) (flt : RPEFilters)
    (h : _prepare_checkout_df_typed df = []) :
    compute_rpe_metrics df flt = {} := by
  rw [compute_rpe_metrics, computeCore, if_pos h]

theorem core_fc (df : List GRow) (flt : RPEFilters)
    (h : _prepare_checkout_df_typed df ≠ []) :
    (compute_rpe_metrics df flt).fatiga_cronica_28d =
        some (_chronic_load (snapDaily df) (snapEnd df flt) 28) ∧
      (compute_rpe_metrics df flt).fatiga_cronica_42d =
          some (_chronic_load (snapDaily df) (snapEnd df flt) 42) ∧
        (compute_rpe_metrics df flt).fatiga_cronica_56d =
          some (_chronic_load (snapDaily df) (snapEnd df flt) 56) := by
  refine ⟨?_, ?_, ?_⟩ <;> (rw [compute_rpe_metrics, computeCore, if_neg h]; rfl)

theorem core_fatiga_aguda (df : List GRow) (flt : RPEFilters)
    (h : _prepare_checkout_df_typed df ≠ []) :
    (compute_rpe_metrics df flt).fatiga_aguda = some (acute7Sum df flt) := by
  have h1 : (compute_rpe_metrics df flt).fatiga_aguda =
      some (if ((snapDaily df).filter fun r =>
          snapEnd df flt - 6 ≤ r.fecha_sesion ∧ r.fecha_sesion ≤ snapEnd df flt) = [] then 0
        else (((snapDaily df).filter fun r =>
          snapEnd df flt - 6 ≤ r.fecha_sesion ∧ r.fecha_sesion ≤ snapEnd df flt).map
            DailyRow.ua_total).sum) := by
    rw [compute_rpe_metrics, computeCore, if_neg h]; rfl
  rw [h1, sum_if_nil]; rfl

theorem core_acwr28 (df : List GRow) (flt : RPEFilters)
    (h : _prepare_checkout_df_typed df ≠ []) :
    (compute_rpe_metrics df flt).acwr_28d =
      if _chronic_load (snapDaily df) (snapEnd df flt) 28 ≠ 0 then
        some ((acute7Sum df flt / 7) / _chronic_load (snapDaily df) (snapEnd df flt) 28)
      else none := by
  have h1 : (compute_rpe_metrics df flt).acwr_28d =
      if _chronic_load (snapDaily df) (snapEnd df flt) 28 ≠ 0 then
        some (((if ((snapDaily df).filter fun r =>
            snapEnd df flt - 6 ≤ r.fecha_sesion ∧ r.fecha_sesion ≤ snapEnd df flt) = [] then 0
          else (((snapDaily df).filter fun r =>
            snapEnd df flt - 6 ≤ r.fecha_sesion ∧ r.fecha_sesion ≤ snapEnd df flt).map
              DailyRow.ua_total).sum) / 7) / _chronic_load (snapDaily df) (snapEnd df flt) 28)
      else none := by
    rw [compute_rpe_metrics, computeCore, if_neg h]; rfl
  rw [h1, sum_if_nil]; rfl

theorem core_acwr42 (df : List GRow) (flt : RPEFilters)
    (h : _prepare_checkout_df_typed df ≠ []) :
    (compute_rpe_metrics df flt).acwr_42d =
      if _chronic_load (snapDaily df) (snapEnd df flt) 42 ≠ 0 then
        some ((acute7Sum df flt / 7) / _chronic_load (snapDaily df) (snapEnd df flt) 42)
      else none := by
  have h1 : (compute_rpe_metrics df flt).acwr_42d =
      if _chronic_load (snapDaily df) (snapEnd df flt) 42 ≠ 0 then
        some (((if ((snapDaily df).filter fun r =>
            snapEnd df flt - 6 ≤ r.fecha_sesion ∧ r.fecha_sesion ≤ snapEnd df flt) = [] then 0
          else (((snapDaily df).filter fun r =>
            snapEnd df flt - 6 ≤ r.fecha_sesion ∧ r.fecha_sesion ≤ snapEnd df flt).map
              DailyRow.ua_total).sum) / 7) / _chronic_load (snapDaily df) (snapEnd df flt) 42)
      else none := by
    rw [compute_rpe_metrics, computeCore, if_neg h]; rfl
  rw [h1, sum_if_nil]; rfl

theorem core_acwr56 (df : List GRow) (flt : RPEFilters)
    (h : _prepare_checkout_df_typed df ≠ []) :
    (compute_rpe_metrics df flt).acwr_56d =
      if _chronic_load (snapDaily df) (snapEnd df flt) 56 ≠ 0 then
        some ((acute7Sum df flt / 7) / _chronic_load (snapDaily df) (snapEnd df flt) 56)
      else none := by
  have h1 : (compute_rpe_metrics df flt).acwr_56d =
      if _chronic_load (snapDaily df) (snapEnd df flt) 56 ≠ 0 then
        some (((if ((snapDaily df).filter fun r =>
            snapEnd df flt - 6 ≤ r.fecha_sesion ∧ r.fecha_sesion ≤ snapEnd df flt) = [] then 0
          else (((snapDaily df).filter fun r =>
            snapEnd df flt - 6 ≤ r.fecha_sesion ∧ r.fecha_sesion ≤ snapEnd df flt).map
              DailyRow.ua_total).sum) / 7) / _chronic_load (snapDaily df) (snapEnd df flt) 56)
      else none := by
    rw [compute_rpe_metrics, computeCore, if_neg h]; rfl
  rw [h1, sum_if_nil]; rfl

theorem core_adaptacion (df : List GRow) (flt : RPEFilters)
    (h : _prepare_checkout_df_typed df ≠ []) :
    ((compute_rpe_metrics df flt).adaptacion_28d =
        if _chronic_load (snapDaily df) (snapEnd df flt) 28 ≠ 0 then
          some (_chronic_load (snapDaily df) (snapEnd df flt) 28 - acute7Sum df flt / 7)
        else none) ∧
      ((compute_rpe_metrics df flt).adaptacion_42d =
          if _chronic_load (snapDaily df) (snapEnd df flt) 42 ≠ 0 then
            some (_chronic_load (snapDaily df) (snapEnd df flt) 42 - acute7Sum df flt / 7)
          else none) ∧
        ((compute_rpe_metrics df flt).adaptacion_56d =
          if _chronic_load (snapDaily df) (snapEnd df flt) 56 ≠ 0 then
            some (_chronic_load (snapDaily df) (snapEnd df flt) 56 - acute7Sum df flt / 7)
          else none) := by
  refine ⟨?_, ?_, ?_⟩ <;>
  · rw [show acute7Sum df flt = (if ((snapDaily df).filter fun r =>
        snapEnd df flt - 6 ≤ r.fecha_sesion ∧ r.fecha_sesion ≤ snapEnd df flt) = [] then 0
      else (((snapDaily df).filter fun r =>
        snapEnd df flt - 6 ≤ r.fecha_sesion ∧ r.fecha_sesion ≤ snapEnd df flt).map
          DailyRow.ua_total).sum) from (sum_if_nil _).symm]
    rw [compute_rpe_metrics, computeCore, if_neg h]
    rfl

theorem core_recuperacion (df : List GRow) (flt : RPEFilters)
    (h : _prepare_checkout_df_typed df ≠ []) :
    ((compute_rpe_metrics df flt).recuperacion_28d =
        if _chronic_load (snapDaily df) (snapEnd df flt) 28 ≠ 0 then
          some (_chronic_load (snapDaily df) (snapEnd df flt) 28 - acute7Sum df flt / 7)
        else none) ∧
      ((compute_rpe_metrics df flt).recuperacion_42d =
          if _chronic_load (snapDaily df) (snapEnd df flt) 42 ≠ 0 then
            some (_chronic_load (snapDaily df) (snapEnd df flt) 42 - acute7Sum df flt / 7)
          else none) ∧
        ((compute_rpe_metrics df flt).recuperacion_56d =
          if _chronic_load (snapDaily df) (snapEnd df flt) 56 ≠ 0 then
            some (_chronic_load (snapDaily df) (snapEnd df flt) 56 - acute7Sum df flt / 7)
          else none) := by
  refine ⟨?_, ?_, ?_⟩ <;>
  · rw [show acute7Sum df flt = (if ((snapDaily df).filter fun r =>
        snapEnd df flt - 6 ≤ r.fecha_sesion ∧ r.fecha_sesion ≤ snapEnd df flt) = [] then 0
      else (((snapDaily df).filter fun r =>
        snapEnd df flt - 6 ≤ r.fecha_sesion ∧ r.fecha_sesion ≤ snapEnd df flt).map
          DailyRow.ua_total).sum) from (sum_if_nil _).symm]
    rw [compute_rpe_metrics, computeCore, if_neg h]
    rfl

theorem core_monotonia (df : List GRow) (flt : RPEFilters)
    (h : _prepare_checkout_df_typed df ≠ []) :
    (compute_rpe_metrics df flt).monotonia_semana =
      if (if 1 < (weekRows df flt).length then pstdQ (weekVals df flt) else 0) ≠ 0 ∧
          0 < (if 1 < (weekRows df flt).length then pstdQ (weekVals df flt) else 0) then
        some ((((if weekRows df flt = [] then (0 : ℚ) else meanQ (weekVals df flt)) : ℚ) : ℝ) /
          (if 1 < (weekRows df flt).length then pstdQ (weekVals df flt) else 0))
      else none := by
  rw [compute_rpe_metrics, computeCore, if_neg h]; rfl

/-! ## Claim C1: chronic fatigue is the window mean over present days -/

/-- C1: for every DailyLoad table, reference date and N ∈ {28, 42, 56},
`_chronic_load` is the arithmetic mean of `ua_total` over the rows whose
date lies in `[end_day - (N-1), end_day]` - averaging only over dates
present in the table - and `0.0` when no row falls in the window; and the
snapshot fields `fatiga_cronica_{28,42,56}d` are exactly these values for
the engine's own daily table and reference date. -/
theorem chronic_fatigue_window_mean :
    (∀ (daily : List DailyRow) (end_day : ℤ) (n : ℕ), n = 28 ∨ n = 42 ∨ n = 56 →
      _chronic_load daily end_day n =
        if (daily.filter fun r =>
            end_day - ((n : ℤ) - 1) ≤ r.fecha_sesion ∧ r.fecha_sesion ≤ end_day) = [] then 0
        else ((daily.filter fun r =>
            end_day - ((n : ℤ) - 1) ≤ r.fecha_sesion ∧ r.fecha_sesion ≤ end_day).map
              DailyRow.ua_total).sum /
          ((daily.filter fun r =>
            end_day - ((n : ℤ) - 1) ≤ r.fecha_sesion ∧ r.fecha_sesion ≤ end_day).length)) ∧
    ∀ (df : List GRow) (flt : RPEFilters), _prepare_checkout_df_typed df ≠ [] →
      (compute_rpe_metrics df flt).fatiga_cronica_28d =
          some (_chronic_load (snapDaily df) (snapEnd df flt) 28) ∧
        (compute_rpe_metrics df flt).fatiga_cronica_42d =
            some (_chronic_load (snapDaily df) (snapEnd df flt) 42) ∧
          (compute_rpe_metrics df flt).fatiga_cronica_56d =
            some (_chronic_load (snapDaily df) (snapEnd df flt) 56) := by
  constructor
  · intro daily end_day n _
    rw [_chronic_load]
    simp only [meanQ, List.length_map]
  · intro df flt h
    exact core_fc df flt h

theorem chronic_fatigue_window_mean_witness :
    ((28 : ℕ) = 28 ∨ (28 : ℕ) = 42 ∨ (28 : ℕ) = 56) ∧
      _prepare_checkout_df_typed dfW ≠ [] ∧
      _chronic_load (snapDaily dfW) 28 28 =
        (if ((snapDaily dfW).filter fun r =>
            (28 : ℤ) - ((28 : ℤ) - 1) ≤ r.fecha_sesion ∧ r.fecha_sesion ≤ 28) = [] then 0
        else (((snapDaily dfW).filter fun r =>
            (28 : ℤ) - ((28 : ℤ) - 1) ≤ r.fecha_sesion ∧ r.fecha_sesion ≤ 28).map
              DailyRow.ua_total).sum /
          (((snapDaily dfW).filter fun r =>
            (28 : ℤ) - ((28 : ℤ) - 1) ≤ r.fecha_sesion ∧ r.fecha_sesion ≤ 28).length)) ∧
      (compute_rpe_metrics dfW fltW28).fatiga_cronica_28d =
        some (_chronic_load (snapDaily dfW) (snapEnd dfW fltW28) 28) :=
  ⟨by decide, by with_unfolding_all decide,
    chronic_fatigue_window_mean.1 (snapDaily dfW) 28 28 (by decide),
    (chronic_fatigue_window_mean.2 dfW fltW28 (by with_unfolding_all decide)).1⟩

/-! ## Claim C2: ACWR nullity and value -/

/-- C2: `acwr_N` is null exactly when `chronic_fatigue_N` is 0.0 or null,
and otherwise equals `(fatiga_aguda / 7) / chronic_fatigue_N`, where
`fatiga_aguda` is the sum of daily load over the 7 calendar days ending
at the reference date. -/
theorem acwr_null_iff_chronic_zero :
    (∀ (df : List GRow) (flt : RPEFilters),
      ((compute_rpe_metrics df flt).acwr_28d = none ↔
          (compute_rpe_metrics df flt).fatiga_cronica_28d = none ∨
            (compute_rpe_metrics df flt).fatiga_cronica_28d = some 0) ∧
        ((compute_rpe_metrics df flt).acwr_42d = none ↔
            (compute_rpe_metrics df flt).fatiga_cronica_42d = none ∨
              (compute_rpe_metrics df flt).fatiga_cronica_42d = some 0) ∧
          ((compute_rpe_metrics df flt).acwr_56d = none ↔
            (compute_rpe_metrics df flt).fatiga_cronica_56d = none ∨
              (compute_rpe_metrics df flt).fatiga_cronica_56d = some 0)) ∧
    ∀ (df : List GRow) (flt : RPEFilters) (c : ℚ), c ≠ 0 →
      ((compute_rpe_metrics df flt).fatiga_cronica_28d = some c →
          (compute_rpe_metrics df flt).acwr_28d = some ((acute7Sum df flt / 7) / c)) ∧
        ((compute_rpe_metrics df flt).fatiga_cronica_42d = some c →
            (compute_rpe_metrics df flt).acwr_42d = some ((acute7Sum df flt / 7) / c)) ∧
          ((compute_rpe_metrics df flt).fatiga_cronica_56d = some c →
            (compute_rpe_metrics df flt).acwr_56d = some ((acute7Sum df flt / 7) / c)) := by
  constructor
  · intro df flt
    by_cases h : _prepare_checkout_df_typed df = []
    · rw [core_empty df flt h]
      refine ⟨?_, ?_, ?_⟩ <;> simp
    · obtain ⟨h28, h42, h56⟩ := core_fc df flt h
      rw [h28, h42, h56, core_acwr28 df flt h, core_acwr42 df flt h, core_acwr56 df flt h]
      refine ⟨?_, ?_, ?_⟩
      · by_cases hc : _chronic_load (snapDaily df) (snapEnd df flt) 28 = 0 <;> simp [hc]
      · by_cases hc : _chronic_load (snapDaily df) (snapEnd df flt) 42 = 0 <;> simp [hc]
      · by_cases hc : _chronic_load (snapDaily df) (snapEnd df flt) 56 = 0 <;> simp [hc]
  · intro df flt c hc
    by_cases h : _prepare_checkout_df_typed df = []
    · rw [core_empty df flt h]
      refine ⟨?_, ?_, ?_⟩ <;> · intro hx; cases hx
    · obtain ⟨h28, h42, h56⟩ := core_fc df flt h
      refine ⟨?_, ?_, ?_⟩
      · rw [h28, core_acwr28 df flt h]
        intro hx
        rw [Option.some_inj] at hx
        rw [hx, if_pos hc]
      · rw [h42, core_acwr42 df flt h]
        intro hx
        rw [Option.some_inj] at hx
        rw [hx, if_pos hc]
      · rw [h56, core_acwr56 df flt h]
        intro hx
        rw [Option.some_inj] at hx
        rw [hx, if_pos hc]

theorem acwr_null_iff_chronic_zero_witness :
    (100 : ℚ) ≠ 0 ∧
      (compute_rpe_metrics dfW fltW1).fatiga_cronica_28d = some 100 ∧
      (compute_rpe_metrics dfW fltW1).acwr_28d = some ((acute7Sum dfW fltW1 / 7) / 100) :=
  ⟨by norm_num, by with_unfolding_all decide,
    (acwr_null_iff_chronic_zero.2 dfW fltW1 100 (by norm_num)).1 (by with_unfolding_all decide)⟩

/-! ## Claim C9: adaptación and recuperación are identical -/

/-- C9: for every input and N ∈ {28, 42, 56} the snapshot indices
`adaptacion_Nd` and `recuperacion_Nd` are equal: both null exactly when
`fatiga_cronica_Nd` is 0.0 or null, and otherwise both equal
`chronic_fatigue_N - fatiga_aguda / 7`. -/
theorem adaptacion_eq_recuperacion :
    (∀ (df : List GRow) (flt : RPEFilters),
      (compute_rpe_metrics df flt).adaptacion_28d = (compute_rpe_metrics df flt).recuperacion_28d ∧
        (compute_rpe_metrics df flt).adaptacion_42d = (compute_rpe_metrics df flt).recuperacion_42d ∧
          (compute_rpe_metrics df flt).adaptacion_56d = (compute_rpe_metrics df flt).recuperacion_56d) ∧
    (∀ (df : List GRow) (flt : RPEFilters),
      ((compute_rpe_metrics df flt).adaptacion_28d = none ↔
          (compute_rpe_metrics df flt).fatiga_cronica_28d = none ∨
            (compute_rpe_metrics df flt).fatiga_cronica_28d = some 0) ∧
        ((compute_rpe_metrics df flt).adaptacion_42d = none ↔
            (compute_rpe_metrics df flt).fatiga_cronica_42d = none ∨
              (compute_rpe_metrics df flt).fatiga_cronica_42d = some 0) ∧
          ((compute_rpe_metrics df flt).adaptacion_56d = none ↔
            (compute_rpe_metrics df flt).fatiga_cronica_56d = none ∨
              (compute_rpe_metrics df flt).fatiga_cronica_56d = some 0)) ∧
    ∀ (df : List GRow) (flt : RPEFilters) (c a : ℚ), c ≠ 0 →
      (compute_rpe_metrics df flt).fatiga_aguda = some a →
      ((compute_rpe_metrics df flt).fatiga_cronica_28d = some c →
          (compute_rpe_metrics df flt).adaptacion_28d = some (c - a / 7) ∧
            (compute_rpe_metrics df flt).recuperacion_28d = some (c - a / 7)) ∧
        ((compute_rpe_metrics df flt).fatiga_cronica_42d = some c →
            (compute_rpe_metrics df flt).adaptacion_42d = some (c - a / 7) ∧
              (compute_rpe_metrics df flt).recuperacion_42d = some (c - a / 7)) ∧
          ((compute_rpe_metrics df flt).fatiga_cronica_56d = some c →
            (compute_rpe_metrics df flt).adaptacion_56d = some (c - a / 7) ∧
              (compute_rpe_metrics df flt).recuperacion_56d = some (c - a / 7)) := by
  refine ⟨?_, ?_, ?_⟩
  · intro df flt
    by_cases h : _prepare_checkout_df_typed df = []
    · rw [compute_rpe_metrics, computeCore, if_pos h]
      exact ⟨rfl, rfl, rfl⟩
    · rw [compute_rpe_metrics, computeCore, if_neg h]
      exact ⟨rfl, rfl, rfl⟩
  · intro df flt
    by_cases h : _prepare_checkout_df_typed df = []
    · rw [core_empty df flt h]
      refine ⟨?_, ?_, ?_⟩ <;> simp
    · obtain ⟨h28, h42, h56⟩ := core_fc df flt h
      obtain ⟨a28, a42, a56⟩ := core_adaptacion df flt h
      rw [h28, h42, h56, a28, a42, a56]
      refine ⟨?_, ?_, ?_⟩
      · by_cases hc : _chronic_load (snapDaily df) (snapEnd df flt) 28 = 0 <;> simp [hc]
      · by_cases hc : _chronic_load (snapDaily df) (snapEnd df flt) 42 = 0 <;> simp [hc]
      · by_cases hc : _chronic_load (snapDaily df) (snapEnd df flt) 56 = 0 <;> simp [hc]
  · intro df flt c a hc ha
    by_cases h : _prepare_checkout_df_typed df = []
    · rw [core_empty df flt h] at ha
      cases ha
    · obtain ⟨h28, h42, h56⟩ := core_fc df flt h
      obtain ⟨a28, a42, a56⟩ := core_adaptacion df flt h
      obtain ⟨r28, r42, r56⟩ := core_recuperacion df flt h
      rw [core_fatiga_aguda df flt h, Option.some_inj] at ha
      subst ha
      refine ⟨?_, ?_, ?_⟩
      · rw [h28]
        intro hx
        rw [Option.some_inj] at hx
        rw [a28, r28, hx, if_pos hc]
        exact ⟨rfl, rfl⟩
      · rw [h42]
        intro hx
        rw [Option.some_inj] at hx
        rw [a42, r42, hx, if_pos hc]
        exact ⟨rfl, rfl⟩
      · rw [h56]
        intro hx
        rw [Option.some_inj] at hx
        rw [a56, r56, hx, if_pos hc]
        exact ⟨rfl, rfl⟩

theorem adaptacion_eq_recuperacion_witness :
    (100 : ℚ) ≠ 0 ∧
      (compute_rpe_metrics dfW fltW1).fatiga_aguda = some 100 ∧
      (compute_rpe_metrics dfW fltW1).fatiga_cronica_28d = some 100 ∧
      (compute_rpe_metrics dfW fltW1).adaptacion_28d = some (100 - 100 / 7) ∧
      (compute_rpe_metrics dfW fltW1).recuperacion_28d = some (100 - 100 / 7) :=
  ⟨by norm_num, by with_unfolding_all decide, by with_unfolding_all decide,
    ((adaptacion_eq_recuperacion.2.2 dfW fltW1 100 100 (by norm_num)
        (by with_unfolding_all decide)).1 (by with_unfolding_all decide)).1,
    ((adaptacion_eq_recuperacion.2.2 dfW fltW1 100 100 (by norm_num)
        (by with_unfolding_all decide)).1 (by with_unfolding_all decide)).2⟩

/-! ## Claim C10: only the `end` filter influences the snapshot -/

/-- C10: `compute_rpe_metrics` ignores the `jugadores`, `turnos` and
`start` fields of its `RPEFilters` argument: two filter values that agree
on `end` give identical results. -/
theorem metrics_depend_only_on_end :
    ∀ (df : List GRow) (f1 f2 : RPEFilters), f1.«end» = f2.«end» →
      compute_rpe_metrics df f1 = compute_rpe_metrics df f2 := by
  intro df f1 f2 h
  cases f1 with
  | mk j1 t1 s1 e1 =>
  cases f2 with
  | mk j2 t2 s2 e2 =>
  change e1 = e2 at h
  subst h
  rfl

theorem metrics_depend_only_on_end_witness :
    compute_rpe_metrics dfW { jugadores := some ["A"], turnos := some ["m"], start := some 5, «end» := some 28 } =
      compute_rpe_metrics dfW { jugadores := none, turnos := none, start := none, «end» := some 28 } :=
  metrics_depend_only_on_end dfW _ _ rfl

/-! ## Claim C8: the single-session chronic-load scenario -/

set_option maxRecDepth 4000 in
/-- C8 counterexample: with one session of load 100 on day 1 and
reference date day 28, `fatiga_cronica_28d` is *not* `100/28`: the window
mean averages only over present days. -/
theorem chronic28_single_session_cx :
    (compute_rpe_metrics dfW fltW28).fatiga_cronica_28d ≠ some (100 / 28) := by
  with_unfolding_all decide

set_option maxRecDepth 4000 in
/-- C8 amended: with one session of load 100 on day 1 and reference date
day 28, `fatiga_cronica_28d = 100.0` - the mean over the single present
day in the 28-day window (not the gap-filled mean 100/28). -/
theorem chronic28_single_session_value :
    (compute_rpe_metrics dfW fltW28).fatiga_cronica_28d = some 100 := by
  with_unfolding_all decide

/-! ## Claim C3: monotony of the current week -/

theorem pstdQ_nonneg (l : List ℚ) : 0 ≤ pstdQ l := Real.sqrt_nonneg _

/-- C3: the snapshot index `monotonia_semana` is null exactly when the
Monday-to-Sunday week containing the reference date has at most one day
with data or its population standard deviation of daily load is zero;
otherwise it is the week's mean daily load divided by that standard
deviation.  The first conjunct checks that `_current_week_range` really
is the Monday-to-Sunday week containing the reference date. -/
theorem monotonia_week_characterization :
    (∀ e : ℤ, pyWeekday (_current_week_range e).1 = 0 ∧
      (_current_week_range e).2 = (_current_week_range e).1 + 6 ∧
      (_current_week_range e).1 ≤ e ∧ e ≤ (_current_week_range e).2) ∧
    (∀ (df : List GRow) (flt : RPEFilters), _prepare_checkout_df_typed df ≠ [] →
      ((compute_rpe_metrics df flt).monotonia_semana = none ↔
        (weekRows df flt).length ≤ 1 ∨ pstdQ (weekVals df flt) = 0)) ∧
    ∀ (df : List GRow) (flt : RPEFilters), _prepare_checkout_df_typed df ≠ [] →
      1 < (weekRows df flt).length → pstdQ (weekVals df flt) ≠ 0 →
      (compute_rpe_metrics df flt).monotonia_semana =
        some (((meanQ (weekVals df flt) : ℚ) : ℝ) / pstdQ (weekVals df flt)) := by
  refine ⟨?_, ?_, ?_⟩
  · intro e
    simp only [_current_week_range, pyWeekday]
    refine ⟨by omega, by trivial, by omega, by omega⟩
  · intro df flt h
    rw [core_monotonia df flt h]
    by_cases hl : 1 < (weekRows df flt).length
    · simp only [if_pos hl]
      by_cases hs : pstdQ (weekVals df flt) = 0
      · simp [hs, hl]
      · have hpos : 0 < pstdQ (weekVals df flt) :=
          lt_of_le_of_ne (pstdQ_nonneg _) (Ne.symm hs)
        rw [if_pos ⟨hs, hpos⟩]
        simp [hs, Nat.not_le.mpr hl]
    · simp only [if_neg hl]
      simp [Nat.le_of_not_lt hl]
  · intro df flt h hl hs
    have hne : weekRows df flt ≠ [] := by
      intro hnil
      rw [hnil] at hl
      simp at hl
    have hpos : 0 < pstdQ (weekVals df flt) :=
      lt_of_le_of_ne (pstdQ_nonneg _) (Ne.symm hs)
    rw [core_monotonia df flt h]
    simp only [if_pos hl, if_neg hne]
    rw [if_pos ⟨hs, hpos⟩]

theorem monotonia_week_characterization_witness :
    _prepare_checkout_df_typed dfW2 ≠ [] ∧
      1 < (weekRows dfW2 fltW2).length ∧
      pstdQ (weekVals dfW2 fltW2) ≠ 0 ∧
      (compute_rpe_metrics dfW2 fltW2).monotonia_semana =
        some (((meanQ (weekVals dfW2 fltW2) : ℚ) : ℝ) / pstdQ (weekVals dfW2 fltW2)) := by
  have hvar : pvarQ (weekVals dfW2 fltW2) = 1 := by with_unfolding_all decide
  have hstd : pstdQ (weekVals dfW2 fltW2) ≠ 0 := by
    simp only [pstdQ, hvar, Rat.cast_one, Real.sqrt_one]
    norm_num
  exact ⟨by with_unfolding_all decide, by with_unfolding_all decide, hstd,
    monotonia_week_characterization.2.2 dfW2 fltW2 (by with_unfolding_all decide)
      (by with_unfolding_all decide) hstd⟩

/-! ## Claim C4: normalization of malformed rows -/

/-- C4 (code bug): the claim says a row with an unparseable date is
silently dropped and never surfaces as an error.  The code does neither:
(1) on a frame whose date column is `fecha` (no `fecha_sesion`), the
guarded coercion line reads the absent `fecha_sesion` column and raises
`KeyError`; (2) on a frame that does have `fecha_sesion`, the date is
never coerced at all, so a row with the unparseable date string
`"not-a-date"` survives normalization instead of being dropped.
Unparseable *loads* are indeed dropped (third conjunct). -/
theorem normalizer_unparseable_date_behavior :
    _prepare_checkout_df
        { hasTipo := true, hasUa := true, hasFecha := true, hasFechaSesion := false,
          rows := [{ tipo := Cell.str "checkOut", ua := Cell.num 100,
                     fecha := Cell.str "not-a-date", fecha_sesion := Cell.null }] } =
      Except.error "KeyError: fecha_sesion" ∧
    _prepare_checkout_df
        { hasTipo := true, hasUa := true, hasFecha := false, hasFechaSesion := true,
          rows := [{ tipo := Cell.str "checkOut", ua := Cell.num 100,
                     fecha := Cell.null, fecha_sesion := Cell.str "not-a-date" }] } =
      Except.ok [{ fecha_sesion := Cell.str "not-a-date", ua := 100 }] ∧
    _prepare_checkout_df
        { hasTipo := true, hasUa := true, hasFecha := false, hasFechaSesion := true,
          rows := [{ tipo := Cell.str "checkOut", ua := Cell.str "not-a-number",
                     fecha := Cell.null, fecha_sesion := Cell.date 1 }] } =
      Except.ok [] := by
  refine ⟨by with_unfolding_all rfl, by with_unfolding_all rfl,
    by with_unfolding_all rfl⟩

/-! ## Claim C6: the per-group time-series generator -/

set_option maxRecDepth 4000 in
/-- C6 counterexample: the claim says the group generator's output
contains the same family of derived columns as the per-athlete generator,
including EMA curves.  On a concrete input the per-athlete output has the
column `fatiga_aguda_7d_ema` but the group output has no EMA column at
all. -/
theorem group_timeseries_missing_ema_cx :
    ("fatiga_aguda_7d_ema" ∈ (compute_rpe_timeseries dfT 7 42).2.map Prod.fst) ∧
      ¬ ("fatiga_aguda_7d_ema" ∈ (compute_rpe_timeseries_group dfT 7 42).2.map Prod.fst) := by
  refine ⟨by with_unfolding_all decide, by with_unfolding_all decide⟩

/-- C6 amended: the group generator does run the same gap-fill and
rolling pipeline on squad-summed daily load, and its five columns (daily
load plus SMA acute, chronic, recovery, ACWR - the acute name hard-coded
`fatiga_aguda_7d`, the others unsuffixed) carry exactly the values of the
per-athlete generator's first five (SMA) columns; but it produces no EMA
columns, which only the per-athlete generator appends. -/
theorem group_timeseries_sma_refinement :
    ∀ (df : List TSRow) (va vc : ℕ), df ≠ [] →
      (compute_rpe_timeseries_group df va vc).1 = (compute_rpe_timeseries df va vc).1 ∧
      (compute_rpe_timeseries_group df va vc).2.map Prod.snd =
        ((compute_rpe_timeseries df va vc).2.map Prod.snd).take 5 ∧
      (compute_rpe_timeseries_group df va vc).2.map Prod.fst =
        ["ua_grupal", "fatiga_aguda_7d", "fatiga_cronica_" ++ toString vc ++ "d",
         "recuperacion_" ++ toString vc ++ "d", "acwr_" ++ toString vc ++ "d"] ∧
      ((compute_rpe_timeseries df va vc).2.map Prod.fst).drop 5 =
        ["fatiga_aguda_" ++ toString va ++ "d_ema",
         "fatiga_cronica_" ++ toString vc ++ "d_ema",
         "recuperacion_" ++ toString vc ++ "d_ema",
         "acwr_" ++ toString vc ++ "d_ema"] := by
  intro df va vc h
  rw [compute_rpe_timeseries, compute_rpe_timeseries_group, if_neg h, if_neg h]
  exact ⟨rfl, rfl, rfl, rfl⟩

theorem group_timeseries_sma_refinement_witness :
    dfT ≠ [] ∧
      (compute_rpe_timeseries_group dfT 7 42).2.map Prod.snd =
        ((compute_rpe_timeseries dfT 7 42).2.map Prod.snd).take 5 :=
  ⟨by decide, (group_timeseries_sma_refinement dfT 7 42 (by decide)).2.1⟩

/-! ## Claim C5: athletes with zero usable rows in the group table -/

set_option maxRecDepth 8000 in
/-- C5 counterexample: athlete `B` has zero usable session rows after
normalization (only a `checkIn` row), yet the per-athlete table contains
a row for `B` - so it has 2 rows, and `jugadoras_activas`
(`len(df_players)`) counts `B`. -/
theorem by_player_includes_zero_usable_cx :
    (compute_rpe_metrics_by_player dfC5 none none none (some 1)).map PlayerRow.id_jugadora =
        ["A", "B"] ∧
      _prepare_checkout_df_typed (dfC5.filter fun r => r.id_jugadora = "B") = [] := by
  refine ⟨by with_unfolding_all decide, by with_unfolding_all decide⟩

/-- C5 amended: the per-athlete table contains exactly one row for every
distinct athlete id of the raw table - athletes with zero usable session
rows included; such an athlete's row has null metric fields (the
`if not metrics: continue` guard in the source never fires because the
metrics dictionary is always populated), and the athlete therefore still
counts toward `jugadoras_activas`. -/
theorem by_player_row_per_athlete :
    (∀ (df : List GRow) (jugadores turnos : Option (List String)) (start fin : Option ℤ),
      (compute_rpe_metrics_by_player df jugadores turnos start fin).map PlayerRow.id_jugadora =
        sortDedup (df.map GRow.id_jugadora)) ∧
    ∀ (df : List GRow) (jugadores turnos : Option (List String)) (start fin : Option ℤ)
      (pid : String), pid ∈ df.map GRow.id_jugadora →
      _prepare_checkout_df_typed (df.filter fun r => r.id_jugadora = pid) = [] →
      ∃ r ∈ compute_rpe_metrics_by_player df jugadores turnos start fin,
        r.id_jugadora = pid ∧ r.carga_semana = none ∧ r.fatiga_aguda = none ∧
          r.fatiga_cronica_28d = none ∧ r.fatiga_cronica_42d = none ∧
            r.fatiga_cronica_56d = none ∧ r.acwr_28d = none ∧ r.acwr_42d = none ∧
              r.acwr_56d = none ∧ r.monotonia = none := by
  constructor
  · intro df jugadores turnos start fin
    rw [compute_rpe_metrics_by_player, List.map_map]
    exact List.map_id' _
  · intro df jugadores turnos start fin pid hmem hprep
    refine ⟨_, List.mem_map_of_mem _ ((mem_sortDedup pid _).mpr hmem), ?_⟩
    refine ⟨rfl, ?_, ?_, ?_, ?_, ?_, ?_, ?_, ?_, ?_⟩ <;>
    · dsimp only
      rw [core_empty _ _ hprep]

set_option maxRecDepth 8000 in
theorem by_player_row_per_athlete_witness :
    ("B" ∈ dfC5.map GRow.id_jugadora) ∧
      _prepare_checkout_df_typed (dfC5.filter fun r => r.id_jugadora = "B") = [] ∧
      ∃ r ∈ compute_rpe_metrics_by_player dfC5 none none none (some 1),
        r.id_jugadora = "B" ∧ r.carga_semana = none ∧ r.fatiga_aguda = none ∧
          r.fatiga_cronica_28d = none ∧ r.fatiga_cronica_42d = none ∧
            r.fatiga_cronica_56d = none ∧ r.acwr_28d = none ∧ r.acwr_42d = none ∧
              r.acwr_56d = none ∧ r.monotonia = none :=
  ⟨by with_unfolding_all decide, by with_unfolding_all decide,
    by_player_row_per_athlete.2 dfC5 none none none (some 1) "B"
      (by with_unfolding_all decide) (by with_unfolding_all decide)⟩

/-! ## Claim C7: round-tripping the daily table through `_daily_loads` -/

theorem sorted_lt_nodup {l : List ℤ} (h : l.Sorted (· < ·)) : l.Nodup :=
  h.imp ne_of_lt

theorem filter_key_single {β : Type} (key : β → ℤ) (g : ℤ → β) (hg : ∀ x, key (g x) = x)
    (l : List ℤ) (hnd : l.Nodup) (d : ℤ) (hd : d ∈ l) :
    (l.map g).filter (fun b => key b = d) = [g d] := by
  induction l with
  | nil => cases hd
  | cons a as ih =>
    rw [List.map_cons, List.filter_cons]
    simp only [List.nodup_cons] at hnd
    by_cases had : a = d
    · subst had
      rw [if_pos (by simp [hg])]
      have hrest : (as.map g).filter (fun b => decide (key b = a)) = [] := by
        refine List.filter_eq_nil_iff.mpr ?_
        intro b hb
        rcases List.mem_map.mp hb with ⟨x, hx, rfl⟩
        simp only [hg, decide_eq_true_eq]
        exact fun e => hnd.1 (e ▸ hx)
      rw [hrest]
    · rw [if_neg (by simp [hg, had])]
      rcases List.mem_cons.mp hd with h1 | hmem
      · exact absurd h1.symm had
      · exact ih hnd.2 hmem

theorem daily_loads_zero_on_sorted (l : List ℤ) (hs : l.Sorted (· < ·)) :
    _daily_loads
        { hasUa := false, hasMinutos := false,
          rows := l.map fun d => { fecha_sesion := d, ua := none, minutos_sesion := none } } =
      l.map fun d => { fecha_sesion := d, ua_total := some 0, minutos_total := some 0 } := by
  rw [_daily_loads]
  by_cases hl : l = []
  · subst hl
    simp
  · rw [if_neg (by simpa using hl)]
    have hw : (l.map fun d =>
          ({ fecha_sesion := d, ua := none, minutos_sesion := none } : LoadRow)).map
            (fun r => { r with
              ua := if false then r.ua else some 0,
              minutos_sesion := if false then r.minutos_sesion else some 0 }) =
        l.map fun d => ({ fecha_sesion := d, ua := some 0, minutos_sesion := some 0 } : LoadRow) := by
      rw [List.map_map]
      rfl
    rw [hw]
    have hdates : ((l.map fun d =>
          ({ fecha_sesion := d, ua := some 0, minutos_sesion := some 0 } : LoadRow)).map
            LoadRow.fecha_sesion) = l := by
      rw [List.map_map]
      exact List.map_id' l
    dsimp only
    rw [hdates, sortDedup_eq_self l hs]
    refine List.map_congr_left ?_
    intro d hd
    dsimp only
    rw [filter_key_single LoadRow.fecha_sesion
        (fun d => { fecha_sesion := d, ua := some 0, minutos_sesion := some 0 })
        (fun _ => rfl) l (sorted_lt_nodup hs) d hd]
    simp [minCountSum]

theorem daily_dates_sorted (df : List SessionRow) :
    ((_daily_loads_typed df).map DailyRow.fecha_sesion).Sorted (· < ·) := by
  rw [_daily_loads_typed]
  by_cases h : df = []
  · rw [if_pos h]
    simp
  · rw [if_neg h, List.map_map]
    have : (DailyRow.fecha_sesion ∘ fun d =>
        ({ fecha_sesion := d,
           ua_total := ((df.filter fun r => r.fecha_sesion = d).map SessionRow.ua).sum,
           minutos_total := minCountSum
             ((df.filter fun r => r.fecha_sesion = d).map SessionRow.minutos_sesion) } :
          DailyRow)) = fun d => d := rfl
    rw [this, List.map_id']
    exact sorted_sortDedup _

set_option maxRecDepth 4000 in
/-- C7 counterexample: feeding the engine's own `daily_table` back
through the Daily Aggregator is *not* a no-op: with one session of load
100 and 60 minutes, the round trip returns the same date but
`ua_total = 0` and `minutos_total = 0` (the aggregator reads the columns
`ua` / `minutos_sesion`, which the daily table does not have, and fills
them with 0). -/
theorem daily_roundtrip_not_identity_cx :
    ¬ (_daily_loads (dailyTableAsDF (_daily_loads_typed
          [{ fecha_sesion := 1, ua := 100, minutos_sesion := some 60 }])) =
        (_daily_loads_typed
            [{ fecha_sesion := 1, ua := 100, minutos_sesion := some 60 }]).map
          fun r => { fecha_sesion := r.fecha_sesion, ua_total := some r.ua_total,
                     minutos_total := r.minutos_total }) := by
  with_unfolding_all decide

/-- C7 amended: round-tripping the engine's `daily_table` through
`_daily_loads` preserves the dates (already distinct and ascending) but
replaces every `ua_total` and `minutos_total` by 0, because the
aggregator looks for the columns `ua` and `minutos_sesion`, which are
absent from the daily table, and defaults them to 0.  It is a no-op only
on tables whose loads and minutes are all zero. -/
theorem daily_roundtrip_zeroes :
    ∀ df : List SessionRow,
      _daily_loads (dailyTableAsDF (_daily_loads_typed df)) =
        (_daily_loads_typed df).map
          fun r => { fecha_sesion := r.fecha_sesion, ua_total := some 0,
                     minutos_total := some 0 } := by
  intro df
  have hs := daily_dates_sorted df
  have h1 : dailyTableAsDF (_daily_loads_typed df) =
      { hasUa := false, hasMinutos := false,
        rows := ((_daily_loads_typed df).map DailyRow.fecha_sesion).map
          fun d => { fecha_sesion := d, ua := none, minutos_sesion := none } } := by
    rw [dailyTableAsDF, List.map_map]
    rfl
  rw [h1, daily_loads_zero_on_sorted _ hs, List.map_map]
  rfl

end DuxWellness

